import Mathlib

/-!
# PAWS storefront (`script.js`): cart / stock ledger

A shallow embedding of the cart and stock bookkeeping of `script.js`.

Conventions of the embedding

* JavaScript numbers that the ledger handles are integers and are modelled by `Int`;
  nothing is clamped by the types, so a negative number on record stays negative.
* A JavaScript object used as a dictionary (`product.sizes`, `STOCK_OVERRIDE`) is a list of
  `(key, value)` pairs read by own-property lookup (first entry with the key).
* Strings are `String`; the override key is the template literal of the source,
  the product id, an underscore, the size label.
* The global variables `cart`, `STOCK_OVERRIDE` and the `localStorage` entries the script
  writes are the fields of `AppState`; `PRODUCTS` and the shipping configuration are fixed
  after boot and are passed as arguments.
* DOM work (`toast`, `alert`, rendering) does not touch the ledger. What it shows to the user
  is returned as a value where a property speaks about it. The function `toast` is called but
  not defined in `script.js`; it is taken to be provided by the page and to return normally.
* Exceptions matter where they change what the ledger ends up holding: `renderProducts`, called
  at the end of `updateStockAfterPurchase`, reads a variable `size` that `script.js` does not
  declare. Whether the page declares one is the parameter `sizeDeclared`.
-/

namespace Paws

/-! ## Data model -/

/-- One entry of `PRODUCTS` (the fields the ledger reads). `sizes` maps a size label to the
initial stock. -/
structure Product where
  id : String
  name : String
  price : Int
  sizes : List (String × Int)
  deriving DecidableEq, Repr

/-- One line of `cart`, as pushed at line 336. -/
structure CartItem where
  id : String
  size : String
  quantity : Int
  price : Int
  name : String
  deriving DecidableEq, Repr

/-- The object `STOCK_OVERRIDE`: key `id_size` to remaining stock. -/
abbrev StockOverride := List (String × Int)

/-- The mutable globals of the script and the `localStorage` entries it writes. -/
structure AppState where
  cart : List CartItem
  STOCK_OVERRIDE : StockOverride
  /-- The localStorage entry `cart`. -/
  stored_cart : List CartItem
  /-- The localStorage entry `stock_override`. -/
  stored_stock_override : StockOverride
  /-- The localStorage entry `cart_subtotal`, absent (`none`) until first written. -/
  cart_subtotal : Option Int
  /-- The localStorage entry `cart_shippingcost`. -/
  cart_shippingcost : Option Int
  /-- The localStorage entry `cart_grandtotal`. -/
  cart_grandtotal : Option Int
  deriving DecidableEq, Repr

/-- Reading `obj[key]` on a dictionary object: `none` is `undefined`. -/
def getProp (obj : List (String × Int)) (key : String) : Option Int :=
  match obj with
  | [] => none
  | (k, v) :: rest => if k = key then some v else getProp rest key

/-- Assignment `obj[key] = value` on a dictionary object. -/
def setProp (obj : List (String × Int)) (key : String) (value : Int) : List (String × Int) :=
  match obj with
  | [] => [(key, value)]
  | (k, v) :: rest => if k = key then (k, value) :: rest else (k, v) :: setProp rest key value

/-- Lookup `PRODUCTS.find(p => p.id === productId)`. -/
def findProduct (PRODUCTS : List Product) (productId : String) : Option Product :=
  match PRODUCTS with
  | [] => none
  | p :: rest => if p.id = productId then some p else findProduct rest productId

/-- The template literal at lines 88 and 97: id, underscore, size. -/
def stockKey (productId size : String) : String :=
  productId ++ "_" ++ size

/-! ## Stock resolution (lines 83-92) -/

/-- Function `getProductStock`, lines 83-92. -/
def getProductStock (PRODUCTS : List Product) (STOCK_OVERRIDE : StockOverride)
    (productId size : String) : Int :=
  match findProduct PRODUCTS productId with
  | none => 0
  | some product =>
    -- `product.sizes[size] || 0`
    let initialStock : Int :=
      match getProp product.sizes size with
      | none => 0
      | some v => if v = 0 then 0 else v
    match getProp STOCK_OVERRIDE (stockKey productId size) with
    | some override => override
    | none => initialStock

/-- Lines 95-105: the `forEach` of `updateStockAfterPurchase`, one override written per item,
each reading the stock through the overrides written so far. -/
def updateStockAfterPurchase_forEach (PRODUCTS : List Product) :
    StockOverride → List CartItem → StockOverride
  | STOCK_OVERRIDE, [] => STOCK_OVERRIDE
  | STOCK_OVERRIDE, item :: rest =>
    let currentStock := getProductStock PRODUCTS STOCK_OVERRIDE item.id item.size
    let newStock := max 0 (currentStock - item.quantity)
    updateStockAfterPurchase_forEach PRODUCTS
      (setProp STOCK_OVERRIDE (stockKey item.id item.size) newStock) rest

/-- Control flow of `renderProducts` (lines 116-159): `true` when the call throws.
Line 128 reads the identifier `size` inside a `reduce` callback whose parameters are `sum`
and `stock`; the script declares no such variable in an enclosing scope, so evaluating the
callback raises a ReferenceError. The callback runs once per value of `product.sizes`, hence
the call throws as soon as one product has a size. `sizeDeclared` says whether something
outside `script.js` declares a global `size` (nothing in the script does: `false`). -/
def renderProductsThrows (sizeDeclared : Bool) (products : List Product) : Bool :=
  !sizeDeclared && products.any (fun product => !product.sizes.isEmpty)

/-- Function `updateStockAfterPurchase`, lines 95-108: the new state and whether the final
`renderProducts(PRODUCTS)` threw. -/
def updateStockAfterPurchase (sizeDeclared : Bool) (PRODUCTS : List Product) (st : AppState)
    (items : List CartItem) : AppState × Bool :=
  let STOCK_OVERRIDE := updateStockAfterPurchase_forEach PRODUCTS st.STOCK_OVERRIDE items
  ({ st with STOCK_OVERRIDE := STOCK_OVERRIDE, stored_stock_override := STOCK_OVERRIDE },
   renderProductsThrows sizeDeclared PRODUCTS)

/-! ## Cart summary (lines 200-223) -/

/-- Shipping configuration loaded at boot (lines 544-545). -/
structure Config where
  FREE_SHIPPING_THRESHOLD : Int
  SHIPPING_FLAT : Int
  deriving DecidableEq, Repr

/-- The three constants computed by `updateCartSummary`. -/
structure Summary where
  subtotal : Int
  shippingCost : Int
  grandTotal : Int
  deriving DecidableEq, Repr

/-- Lines 201-204: the `reduce` giving `subtotal`. -/
def cartSubtotal (PRODUCTS : List Product) : List CartItem → Int → Int
  | [], sum => sum
  | item :: rest, sum =>
    cartSubtotal PRODUCTS rest
      (sum + (match findProduct PRODUCTS item.id with
              | some product => item.quantity * product.price
              | none => 0))

/-- Lines 201-214 of `updateCartSummary`: subtotal, shipping cost and grand total. -/
def updateCartSummary_totals (PRODUCTS : List Product) (cfg : Config)
    (cart : List CartItem) : Summary :=
  let subtotal := cartSubtotal PRODUCTS cart 0
  let shippingCost := if subtotal ≥ cfg.FREE_SHIPPING_THRESHOLD then 0 else cfg.SHIPPING_FLAT
  let grandTotal := subtotal + shippingCost
  { subtotal := subtotal, shippingCost := shippingCost, grandTotal := grandTotal }

/-- Function `updateCartSummary`, lines 200-223: the totals are shown and written to
localStorage. -/
def updateCartSummary (PRODUCTS : List Product) (cfg : Config) (st : AppState) : AppState :=
  let t := updateCartSummary_totals PRODUCTS cfg st.cart
  { st with cart_grandtotal := some t.grandTotal,
            cart_shippingcost := some t.shippingCost,
            cart_subtotal := some t.subtotal }

/-- Function `renderCart`, lines 162-197: with an empty cart it returns before the summary
is recomputed. -/
def renderCart (PRODUCTS : List Product) (cfg : Config) (st : AppState) : AppState :=
  if st.cart.length = 0 then st else updateCartSummary PRODUCTS cfg st

/-! ## Cart mutation (lines 318-359) -/

/-- Messages passed to `toast`. -/
inductive Toast where
  /-- Line 321, "Stok tidak mencukupi!". -/
  | stokTidakMencukupi
  /-- Line 329, "Hanya tersedia N item." with the number shown. -/
  | hanyaTersedia (shown : Int)
  /-- Line 334, "Produk tidak valid.". -/
  | produkTidakValid
  /-- Line 341, "N item ditambahkan ke keranjang.". -/
  | ditambahkan (quantity : Int)
  /-- Line 356, "Item dihapus.". -/
  | itemDihapus
  deriving DecidableEq, Repr

/-- Array method `findIndex`; `none` stands for the result `-1`. -/
def findIndex (p : CartItem → Bool) : List CartItem → Option Nat
  | [] => none
  | item :: rest => if p item then some 0 else (findIndex p rest).map (· + 1)

/-- Function `addToCart`, lines 318-342 (the parameter `quantity` defaults to 1 in the
source). Returns the new state and the toast shown. -/
def addToCart (PRODUCTS : List Product) (st : AppState) (productId size : String)
    (quantity : Int) : AppState × Toast :=
  let stock := getProductStock PRODUCTS st.STOCK_OVERRIDE productId size
  if stock < quantity then (st, Toast.stokTidakMencukupi)
  else
    match findIndex (fun item => item.id = productId && item.size = size) st.cart with
    | some existingItemIndex =>
      match st.cart[existingItemIndex]? with
      | none => (st, Toast.produkTidakValid) -- not reachable, see `findIndex_getElem`
      | some existing =>
        let newQty := existing.quantity + quantity
        if newQty > stock then (st, Toast.hanyaTersedia stock)
        else
          let cart := st.cart.set existingItemIndex { existing with quantity := newQty }
          ({ st with cart := cart, stored_cart := cart }, Toast.ditambahkan quantity)
    | none =>
      match findProduct PRODUCTS productId with
      | none => (st, Toast.produkTidakValid)
      | some product =>
        let cart := st.cart ++ [{ id := productId, size := size, quantity := quantity,
                                  price := product.price, name := product.name }]
        ({ st with cart := cart, stored_cart := cart }, Toast.ditambahkan quantity)

/-- Whether a toast of `addToCart` is one of its three rejections. -/
def Toast.isRejection : Toast → Bool
  | Toast.stokTidakMencukupi => true
  | Toast.hanyaTersedia _ => true
  | Toast.produkTidakValid => true
  | _ => false

/-- One call `addToCart(productId, size, quantity)`. -/
structure AddCall where
  productId : String
  size : String
  quantity : Int
  deriving DecidableEq, Repr

/-- A sequence of `addToCart` calls, run in order from `st`. -/
def addToCartSeq (PRODUCTS : List Product) : AppState → List AddCall → AppState
  | st, [] => st
  | st, c :: rest =>
    addToCartSeq PRODUCTS (addToCart PRODUCTS st c.productId c.size c.quantity).1 rest

/-- Total quantity the cart holds for the pair `(productId, size)`. -/
def cartQuantity (cart : List CartItem) (productId size : String) : Int :=
  ((cart.filter (fun item => item.id = productId && item.size = size)).map
    (fun item => item.quantity)).sum

/-- The state at page load with nothing in localStorage but the given overrides. -/
def emptyCartState (STOCK_OVERRIDE : StockOverride) : AppState :=
  { cart := [], STOCK_OVERRIDE := STOCK_OVERRIDE, stored_cart := [],
    stored_stock_override := STOCK_OVERRIDE,
    cart_subtotal := none, cart_shippingcost := none, cart_grandtotal := none }

/-- Result of `parseInt`: an integer or `NaN`. -/
inductive JSInt where
  | NaN
  | int (n : Int)
  deriving DecidableEq, Repr

/-- Array method `cart.splice(index, 1)` (ECMAScript Array.prototype.splice): the start is
`ToIntegerOrInfinity(index)`, so `NaN` counts as 0; a negative start is taken from the end
and clamped at 0, a start past the end is clamped to the length; at most one element is
deleted. Returns the array after the call. -/
def splice1 (cart : List CartItem) (index : JSInt) : List CartItem :=
  let len : Int := cart.length
  let relativeStart : Int := match index with
    | JSInt.NaN => 0
    | JSInt.int n => n
  let actualStart : Int :=
    if relativeStart < 0 then max (len + relativeStart) 0 else min relativeStart len
  let actualDeleteCount : Int := min (max 1 0) (len - actualStart)
  cart.take actualStart.toNat ++ cart.drop (actualStart.toNat + actualDeleteCount.toNat)

/-- The click handler installed by `attachCartEventListeners` (lines 347-358), for a click on
a remove button whose `data-index` parses to `index`. -/
def attachCartEventListeners_onclick (PRODUCTS : List Product) (cfg : Config) (st : AppState)
    (index : JSInt) : AppState × Toast :=
  let cart := splice1 st.cart index
  (renderCart PRODUCTS cfg { st with cart := cart, stored_cart := cart }, Toast.itemDihapus)

/-! ## Checkout (lines 376-454) -/

/-- Greedy match of at most `max` characters of class `\d` (the ASCII digits) at the head of
the input: the number of digits consumed and the rest of the input. -/
def matchDigits : Nat → List Char → Nat × List Char
  | 0, cs => (0, cs)
  | _ + 1, [] => (0, [])
  | max + 1, c :: cs =>
    if c.isDigit then ((matchDigits max cs).1 + 1, (matchDigits max cs).2) else (0, c :: cs)

/-- Test `phoneRegex.test(customerPhone)` for the regular expression of line 386, anchored at
both ends around between 8 and 15 digits: after the longest run of at most 15 digits the
input must be over, and the run must have at least 8 digits (a shorter run followed by more
input cannot match, since the next character is a digit or breaks the run). -/
def phoneRegexTest (customerPhone : String) : Bool :=
  let m := matchDigits 15 customerPhone.data
  decide (8 ≤ m.1) && m.2.isEmpty

/-- The claim's wording of a valid phone: 8 to 15 characters, all decimal digits. -/
def PhoneIsDigits8to15 (customerPhone : String) : Prop :=
  8 ≤ customerPhone.length ∧ customerPhone.length ≤ 15 ∧
    ∀ c ∈ customerPhone.data, c.isDigit = true

/-- The four fields read from the checkout form (lines 380-383). -/
structure CheckoutForm where
  customerName : String
  customerPhone : String
  customerAddress : String
  notes : String
  deriving DecidableEq, Repr

/-- One element of `orderPayload.items` (lines 406-412). -/
structure OrderItem where
  id : String
  name : String
  size : String
  qty : Int
  price : Int
  deriving DecidableEq, Repr

/-- The object `orderPayload` (lines 397-413). -/
structure OrderPayload where
  orderId : String
  customerName : String
  customerPhone : String
  customerAddress : String
  notes : String
  totalAmount : Int
  shippingCost : Int
  grandTotal : Int
  items : List OrderItem
  deriving DecidableEq, Repr

/-- What the `try` block of lines 418-428 gets from the network: `fetch` or
`response.json()` throws, or a parsed body whose `success` field is truthy or not. -/
inductive ServerReply where
  | throws
  | json (success : Bool)
  deriving DecidableEq, Repr

/-- How `processCheckout` ends, by the message shown to the user. -/
inductive CheckoutOutcome where
  /-- Line 388, alert "Nomor HP tidak valid...". -/
  | validationError
  /-- Line 440, toast "Pesanan ... berhasil dibuat!". -/
  | orderCreated
  /-- Line 443, alert "Gagal mencatat pesanan di server. Coba lagi.". -/
  | serverRejected
  /-- Line 448, alert "Terjadi kesalahan koneksi...", shown by the `catch` block. -/
  | connectionError
  deriving DecidableEq, Repr

/-- State after `processCheckout`, the body POSTed by `fetch` (`none` when no request was
built) and the outcome. -/
structure CheckoutResult where
  state : AppState
  request : Option OrderPayload
  outcome : CheckoutOutcome
  deriving DecidableEq, Repr

/-- Call `getStorage(key, 0)` on one of the stored totals. -/
def getStorage (stored : Option Int) (defaultValue : Int) : Int :=
  match stored with
  | some v => v
  | none => defaultValue

/-- Lines 391-413: the order payload. The totals are read back from localStorage. -/
def buildOrderPayload (st : AppState) (form : CheckoutForm) (orderId : String) : OrderPayload :=
  let subtotal := getStorage st.cart_subtotal 0
  let shippingCost := getStorage st.cart_shippingcost 0
  let grandTotal := getStorage st.cart_grandtotal 0
  { orderId := orderId,
    customerName := form.customerName,
    customerPhone := form.customerPhone,
    customerAddress := form.customerAddress,
    notes := form.notes,
    totalAmount := subtotal,
    shippingCost := shippingCost,
    grandTotal := grandTotal,
    items := st.cart.map (fun item =>
      { id := item.id, name := item.name, size := item.size,
        qty := item.quantity, price := item.price }) }

/-- Function `processCheckout`, lines 376-454. `orderId` is the value of `generateOrderID()`;
`server` is the answer of the remote API to the posted payload; `sizeDeclared` is as in
`renderProductsThrows`. An exception raised inside the `try` block, by the network or by
`updateStockAfterPurchase`, ends in the `catch` block of line 447. -/
def processCheckout (sizeDeclared : Bool) (PRODUCTS : List Product) (st : AppState)
    (form : CheckoutForm) (orderId : String) (server : OrderPayload → ServerReply) :
    CheckoutResult :=
  if !phoneRegexTest form.customerPhone then
    { state := st, request := none, outcome := CheckoutOutcome.validationError }
  else
    let orderPayload := buildOrderPayload st form orderId
    match server orderPayload with
    | ServerReply.throws =>
      { state := st, request := some orderPayload, outcome := CheckoutOutcome.connectionError }
    | ServerReply.json false =>
      { state := st, request := some orderPayload, outcome := CheckoutOutcome.serverRejected }
    | ServerReply.json true =>
      let updated := updateStockAfterPurchase sizeDeclared PRODUCTS st st.cart
      if updated.2 then
        { state := updated.1, request := some orderPayload,
          outcome := CheckoutOutcome.connectionError }
      else
        { state := { updated.1 with cart := [], stored_cart := [] },
          request := some orderPayload, outcome := CheckoutOutcome.orderCreated }

/-- Sum of `qty * price` over the items of a payload. -/
def payloadItemsTotal (items : List OrderItem) : Int :=
  (items.map (fun item => item.qty * item.price)).sum

/-- Catalog and override map hold no negative stock. -/
def StockNonneg (PRODUCTS : List Product) (STOCK_OVERRIDE : StockOverride) : Prop :=
  (∀ p ∈ PRODUCTS, ∀ kv ∈ p.sizes, 0 ≤ kv.2) ∧ (∀ kv ∈ STOCK_OVERRIDE, 0 ≤ kv.2)

/-- A catalog in which the ids and size labels of two products run into the same override
key: `a_b` with size `c`, and `a` with size `b_c`, 5 in stock each. -/
def collidingCatalog : List Product :=
  [{ id := "a_b", name := "AB", price := 10, sizes := [("c", 5)] },
   { id := "a", name := "A", price := 20, sizes := [("b_c", 5)] }]

/-- The cart built from the empty cart by `addToCart("a_b", "c")` and
`addToCart("a", "b_c")` on `collidingCatalog`. -/
def collidingCart : AppState :=
  addToCartSeq collidingCatalog (emptyCartState [])
    [{ productId := "a_b", size := "c", quantity := 1 },
     { productId := "a", size := "b_c", quantity := 1 }]

/-- A checkout form with a valid phone number. -/
def sampleForm : CheckoutForm :=
  { customerName := "A", customerPhone := "0812345678", customerAddress := "B", notes := "" }

/-- One product `p`, size M, 5 in stock. -/
def oneProductCatalog : List Product :=
  [{ id := "p", name := "P", price := 10, sizes := [("M", 5)] }]

/-- The cart after `addToCart("p", "M", 3)` on `oneProductCatalog`, from the empty cart. -/
def cartWithThree : AppState :=
  addToCartSeq oneProductCatalog (emptyCartState [])
    [{ productId := "p", size := "M", quantity := 3 }]

/-! # Properties -/

/-! ## Dictionary and catalog lookups -/

theorem getProp_mem {obj : List (String × Int)} {key : String} {v : Int}
    (h : getProp obj key = some v) : (key, v) ∈ obj := by
  induction obj with
  | nil => simp [getProp] at h
  | cons kv rest ih =>
    obtain ⟨k, w⟩ := kv
    by_cases hk : k = key
    · simp [getProp, hk] at h
      simp [hk, h]
    · simp [getProp, hk] at h
      exact List.mem_cons_of_mem _ (ih h)

theorem getProp_setProp_self (obj : List (String × Int)) (key : String) (value : Int) :
    getProp (setProp obj key value) key = some value := by
  induction obj with
  | nil => simp [setProp, getProp]
  | cons kv rest ih =>
    obtain ⟨k, w⟩ := kv
    by_cases hk : k = key
    · simp [setProp, getProp, hk]
    · simp [setProp, getProp, hk, ih]

theorem getProp_setProp_of_ne (obj : List (String × Int)) {key other : String} (value : Int)
    (h : key ≠ other) : getProp (setProp obj key value) other = getProp obj other := by
  induction obj with
  | nil => simp [setProp, getProp, h]
  | cons kv rest ih =>
    obtain ⟨k, w⟩ := kv
    by_cases hk : k = key
    · subst hk
      simp [setProp, getProp, h]
    · by_cases ho : k = other
      · subst ho
        simp [setProp, getProp, hk]
      · simp [setProp, getProp, hk, ho, ih]

theorem mem_setProp {obj : List (String × Int)} {key : String} {value : Int}
    {kv : String × Int} (h : kv ∈ setProp obj key value) : kv ∈ obj ∨ kv.2 = value := by
  induction obj with
  | nil =>
    simp [setProp] at h
    right; rw [h]
  | cons e rest ih =>
    obtain ⟨k, w⟩ := e
    by_cases hk : k = key
    · simp [setProp, hk] at h
      rcases h with h | h
      · right; rw [h]
      · left; exact List.mem_cons_of_mem _ h
    · simp [setProp, hk] at h
      rcases h with h | h
      · left; rw [h]; exact List.mem_cons_self _ _
      · rcases ih h with h1 | h1
        · left; exact List.mem_cons_of_mem _ h1
        · right; exact h1

theorem findProduct_some {PRODUCTS : List Product} {productId : String} {product : Product}
    (h : findProduct PRODUCTS productId = some product) :
    product ∈ PRODUCTS ∧ product.id = productId := by
  induction PRODUCTS with
  | nil => simp [findProduct] at h
  | cons p rest ih =>
    by_cases hp : p.id = productId
    · simp [findProduct, hp] at h
      subst h
      exact ⟨List.mem_cons_self _ _, hp⟩
    · simp [findProduct, hp] at h
      exact ⟨List.mem_cons_of_mem _ (ih h).1, (ih h).2⟩

theorem getProductStock_nonneg_aux {PRODUCTS : List Product} {STOCK_OVERRIDE : StockOverride}
    (h : StockNonneg PRODUCTS STOCK_OVERRIDE) (productId size : String) :
    0 ≤ getProductStock PRODUCTS STOCK_OVERRIDE productId size := by
  unfold getProductStock
  cases hf : findProduct PRODUCTS productId with
  | none => simp
  | some product =>
    simp only
    cases ho : getProp STOCK_OVERRIDE (stockKey productId size) with
    | some override => exact h.2 _ (getProp_mem ho)
    | none =>
      simp only
      cases hs : getProp product.sizes size with
      | none => simp
      | some v =>
        have := h.1 _ (findProduct_some hf).1 _ (getProp_mem hs)
        by_cases hv : v = 0
        · simp [hv]
        · simpa [hv] using this

theorem updateStockAfterPurchase_forEach_nonneg (PRODUCTS : List Product)
    (items : List CartItem) :
    ∀ STOCK_OVERRIDE : StockOverride, (∀ kv ∈ STOCK_OVERRIDE, 0 ≤ kv.2) →
      ∀ kv ∈ updateStockAfterPurchase_forEach PRODUCTS STOCK_OVERRIDE items, 0 ≤ kv.2 := by
  induction items with
  | nil => intro O hO; simpa [updateStockAfterPurchase_forEach] using hO
  | cons item rest ih =>
    intro O hO
    simp only [updateStockAfterPurchase_forEach]
    apply ih
    intro kv hkv
    rcases mem_setProp hkv with h | h
    · exact hO kv h
    · rw [h]; exact le_max_left _ _

/-- C8 (as stated, refuted). `getProductStock` hands back what is on record: an initial stock
of -1 in the catalog, or an override of -3, comes out negative. -/
theorem getProductStock_negative_on_record :
    getProductStock [{ id := "p", name := "P", price := 10, sizes := [("M", -1)] }]
        [] "p" "M" = -1 ∧
      getProductStock [{ id := "p", name := "P", price := 10, sizes := [("M", 5)] }]
        [("p_M", -3)] "p" "M" = -3 := by
  decide

/-- C8 (amended). When no initial stock in the catalog and no value in the override map is
negative, `getProductStock` is never negative, and this still holds for the override map
left by `updateStockAfterPurchase`, whatever the items bought. -/
theorem getProductStock_nonneg (sizeDeclared : Bool) (PRODUCTS : List Product)
    (st : AppState) (items : List CartItem) (productId size : String)
    (h : StockNonneg PRODUCTS st.STOCK_OVERRIDE) :
    0 ≤ getProductStock PRODUCTS st.STOCK_OVERRIDE productId size ∧
      StockNonneg PRODUCTS
        (updateStockAfterPurchase sizeDeclared PRODUCTS st items).1.STOCK_OVERRIDE ∧
      0 ≤ getProductStock PRODUCTS
        (updateStockAfterPurchase sizeDeclared PRODUCTS st items).1.STOCK_OVERRIDE
        productId size := by
  have h2 : StockNonneg PRODUCTS
      (updateStockAfterPurchase sizeDeclared PRODUCTS st items).1.STOCK_OVERRIDE :=
    ⟨h.1, updateStockAfterPurchase_forEach_nonneg PRODUCTS items _ h.2⟩
  exact ⟨getProductStock_nonneg_aux h _ _, h2, getProductStock_nonneg_aux h2 _ _⟩

/-- C8 (amended), instance: stock 5, one unit in the cart bought three times over. -/
theorem getProductStock_nonneg_witness :
    StockNonneg [{ id := "p", name := "P", price := 10, sizes := [("M", 2)] }]
        (emptyCartState [("p_M", 1)]).STOCK_OVERRIDE ∧
      0 ≤ getProductStock [{ id := "p", name := "P", price := 10, sizes := [("M", 2)] }]
        (updateStockAfterPurchase false
          [{ id := "p", name := "P", price := 10, sizes := [("M", 2)] }]
          (emptyCartState [("p_M", 1)])
          [{ id := "p", size := "M", quantity := 3, price := 10, name := "P" }]).1.STOCK_OVERRIDE
        "p" "M" :=
  have h : StockNonneg [{ id := "p", name := "P", price := 10, sizes := [("M", 2)] }]
      (emptyCartState [("p_M", 1)]).STOCK_OVERRIDE := by
    constructor
    · intro p hp kv hkv
      simp at hp
      subst hp
      simp at hkv
      subst hkv
      decide
    · intro kv hkv
      simp [emptyCartState] at hkv
      subst hkv
      decide
  ⟨h, (getProductStock_nonneg false _ _ _ "p" "M" h).2.2⟩

/-! ## Cart summary -/

theorem processCheckout_request_of_valid (sizeDeclared : Bool) (PRODUCTS : List Product)
    (st : AppState) (form : CheckoutForm) (orderId : String)
    (server : OrderPayload → ServerReply) (h : phoneRegexTest form.customerPhone = true) :
    (processCheckout sizeDeclared PRODUCTS st form orderId server).request
      = some (buildOrderPayload st form orderId) := by
  unfold processCheckout
  simp only [h, Bool.not_true, Bool.false_eq_true, if_false]
  cases server (buildOrderPayload st form orderId) with
  | throws => rfl
  | json success =>
    cases success with
    | false => rfl
    | true =>
      simp only
      split <;> rfl

/-- C4 (as stated, refuted). One line of quantity 3 at price 50000 is in the cart and nothing
has been stored under `cart_subtotal`, `cart_shippingcost`, `cart_grandtotal`: the payload
posted by `processCheckout` carries `totalAmount` 0, `shippingCost` 0 and `grandTotal` 0,
while its items add up to 150000. -/
theorem processCheckout_totals_not_recomputed :
    ∃ payload : OrderPayload,
      (processCheckout false [{ id := "p", name := "P", price := 50000, sizes := [("M", 9)] }]
        { cart := [{ id := "p", size := "M", quantity := 3, price := 50000, name := "P" }],
          STOCK_OVERRIDE := [],
          stored_cart := [{ id := "p", size := "M", quantity := 3, price := 50000, name := "P" }],
          stored_stock_override := [],
          cart_subtotal := none, cart_shippingcost := none, cart_grandtotal := none }
        { customerName := "A", customerPhone := "0812345678", customerAddress := "B",
          notes := "" }
        "PAWS-1" (fun _ => ServerReply.json false)).request = some payload ∧
      payloadItemsTotal payload.items = 150000 ∧
      payload.totalAmount = 0 ∧ payload.shippingCost = 0 ∧ payload.grandTotal = 0 ∧
      payload.totalAmount ≠ payloadItemsTotal payload.items := by
  refine ⟨_, processCheckout_request_of_valid _ _ _ _ _ _ (by decide), ?_⟩
  decide

/-- C4 (amended). For every cart, stored totals and valid phone, the payload built by
`processCheckout` takes `totalAmount`, `shippingCost` and `grandTotal` from the localStorage
entries `cart_subtotal`, `cart_shippingcost`, `cart_grandtotal` (0 for a missing entry),
whatever the cart holds, and its items are the lines of the live cart. When
`updateCartSummary` has just run on that cart, these are its totals: the subtotal at catalog
prices, the shipping cost by the threshold rule, and `grandTotal = totalAmount +
shippingCost`. -/
theorem processCheckout_payload_totals (sizeDeclared : Bool) (PRODUCTS : List Product)
    (cfg : Config) (st : AppState) (form : CheckoutForm) (orderId : String)
    (server : OrderPayload → ServerReply) (h : phoneRegexTest form.customerPhone = true) :
    (∃ payload : OrderPayload,
      (processCheckout sizeDeclared PRODUCTS st form orderId server).request = some payload ∧
      payload.totalAmount = getStorage st.cart_subtotal 0 ∧
      payload.shippingCost = getStorage st.cart_shippingcost 0 ∧
      payload.grandTotal = getStorage st.cart_grandtotal 0 ∧
      payload.items = st.cart.map (fun item =>
        { id := item.id, name := item.name, size := item.size,
          qty := item.quantity, price := item.price })) ∧
    (∃ payload : OrderPayload,
      (processCheckout sizeDeclared PRODUCTS (updateCartSummary PRODUCTS cfg st)
        form orderId server).request = some payload ∧
      payload.totalAmount = cartSubtotal PRODUCTS st.cart 0 ∧
      payload.shippingCost
        = (if cfg.FREE_SHIPPING_THRESHOLD ≤ payload.totalAmount then 0 else cfg.SHIPPING_FLAT) ∧
      payload.grandTotal = payload.totalAmount + payload.shippingCost) := by
  refine ⟨⟨_, processCheckout_request_of_valid _ _ _ _ _ _ h, rfl, rfl, rfl, rfl⟩,
    ⟨_, processCheckout_request_of_valid _ _ _ _ _ _ h, rfl, ?_, rfl⟩⟩
  simp [buildOrderPayload, updateCartSummary, updateCartSummary_totals, getStorage, ge_iff_le]

/-- C4 (amended), instance: stored totals 1, 2, 3 and a cart worth 150000. -/
theorem processCheckout_payload_totals_witness :
    ∃ payload : OrderPayload,
      (processCheckout false [{ id := "p", name := "P", price := 50000, sizes := [("M", 9)] }]
        { cart := [{ id := "p", size := "M", quantity := 3, price := 50000, name := "P" }],
          STOCK_OVERRIDE := [],
          stored_cart := [{ id := "p", size := "M", quantity := 3, price := 50000, name := "P" }],
          stored_stock_override := [],
          cart_subtotal := some 1, cart_shippingcost := some 2, cart_grandtotal := some 3 }
        { customerName := "A", customerPhone := "0812345678", customerAddress := "B",
          notes := "" }
        "PAWS-1" (fun _ => ServerReply.json false)).request = some payload ∧
      payload.totalAmount = 1 ∧ payload.shippingCost = 2 ∧ payload.grandTotal = 3 :=
  match (processCheckout_payload_totals false
      [{ id := "p", name := "P", price := 50000, sizes := [("M", 9)] }]
      { FREE_SHIPPING_THRESHOLD := 200000, SHIPPING_FLAT := 15000 }
      { cart := [{ id := "p", size := "M", quantity := 3, price := 50000, name := "P" }],
        STOCK_OVERRIDE := [],
        stored_cart := [{ id := "p", size := "M", quantity := 3, price := 50000, name := "P" }],
        stored_stock_override := [],
        cart_subtotal := some 1, cart_shippingcost := some 2, cart_grandtotal := some 3 }
      { customerName := "A", customerPhone := "0812345678", customerAddress := "B",
        notes := "" }
      "PAWS-1" (fun _ => ServerReply.json false) (by decide)).1 with
  | ⟨payload, hreq, h1, h2, h3, _⟩ => ⟨payload, hreq, h1, h2, h3⟩

/-! ## Rejected additions -/

theorem addToCart_STOCK_OVERRIDE (PRODUCTS : List Product) (st : AppState)
    (productId size : String) (quantity : Int) :
    (addToCart PRODUCTS st productId size quantity).1.STOCK_OVERRIDE = st.STOCK_OVERRIDE ∧
    (addToCart PRODUCTS st productId size quantity).1.stored_stock_override
      = st.stored_stock_override := by
  unfold addToCart
  simp only
  split
  · exact ⟨rfl, rfl⟩
  · split
    · split
      · exact ⟨rfl, rfl⟩
      · split <;> exact ⟨rfl, rfl⟩
    · split <;> exact ⟨rfl, rfl⟩

/-- C6. Whenever `addToCart` ends with one of its rejection messages, the whole state (cart,
stock overrides and what is stored) is the state before the call; a call with
`getProductStock(productId, size) < quantity` is rejected with "Stok tidak mencukupi!" and
changes nothing; a call for a pair with a cart line whose merged quantity exceeds the stock
is rejected and changes nothing; a call that reaches the unknown-product check is rejected
and changes nothing; and no call ever changes the stock-override map. -/
theorem addToCart_rejection_leaves_state (PRODUCTS : List Product) (st : AppState)
    (productId size : String) (quantity : Int) :
    ((addToCart PRODUCTS st productId size quantity).2.isRejection = true →
        (addToCart PRODUCTS st productId size quantity).1 = st) ∧
    (getProductStock PRODUCTS st.STOCK_OVERRIDE productId size < quantity →
        addToCart PRODUCTS st productId size quantity = (st, Toast.stokTidakMencukupi)) ∧
    (∀ i existing,
        findIndex (fun item => item.id = productId && item.size = size) st.cart = some i →
        st.cart[i]? = some existing →
        existing.quantity + quantity
          > getProductStock PRODUCTS st.STOCK_OVERRIDE productId size →
        (addToCart PRODUCTS st productId size quantity).2.isRejection = true ∧
        (addToCart PRODUCTS st productId size quantity).1 = st) ∧
    (findIndex (fun item => item.id = productId && item.size = size) st.cart = none →
        findProduct PRODUCTS productId = none →
        (addToCart PRODUCTS st productId size quantity).2.isRejection = true ∧
        (addToCart PRODUCTS st productId size quantity).1 = st) ∧
    (addToCart PRODUCTS st productId size quantity).1.STOCK_OVERRIDE = st.STOCK_OVERRIDE := by
  refine ⟨?_, ?_, ?_, ?_, (addToCart_STOCK_OVERRIDE _ _ _ _ _).1⟩
  · unfold addToCart
    simp only
    split
    · intro _; rfl
    · split
      · split
        · intro _; rfl
        · split
          · intro _; rfl
          · intro h; simp [Toast.isRejection] at h
      · split
        · intro _; rfl
        · intro h; simp [Toast.isRejection] at h
  · intro h
    simp [addToCart, h]
  · intro i existing hi he hq
    unfold addToCart
    simp only [hi, he, hq, if_true]
    split <;> exact ⟨rfl, rfl⟩
  · intro hi hp
    unfold addToCart
    simp only [hi, hp]
    split <;> exact ⟨rfl, rfl⟩

/-- C6, instance: stock 2, quantity 3 is rejected, cart and stock unchanged. -/
theorem addToCart_rejection_leaves_state_witness :
    getProductStock [{ id := "p", name := "P", price := 10, sizes := [("M", 2)] }]
        (emptyCartState []).STOCK_OVERRIDE "p" "M" = 2 ∧
      addToCart [{ id := "p", name := "P", price := 10, sizes := [("M", 2)] }]
        (emptyCartState []) "p" "M" 3 = (emptyCartState [], Toast.stokTidakMencukupi) :=
  ⟨by decide,
   (addToCart_rejection_leaves_state
      [{ id := "p", name := "P", price := 10, sizes := [("M", 2)] }]
      (emptyCartState []) "p" "M" 3).2.1 (by decide)⟩

/-! ## Checkout -/

theorem matchDigits_rest_nil (max : Nat) (cs : List Char) :
    (matchDigits max cs).2 = [] ↔ (cs.length ≤ max ∧ ∀ c ∈ cs, c.isDigit = true) := by
  induction max generalizing cs with
  | zero =>
    cases cs with
    | nil => simp [matchDigits]
    | cons c cs => simp [matchDigits]
  | succ n ih =>
    cases cs with
    | nil => simp [matchDigits]
    | cons c cs =>
      by_cases hc : c.isDigit = true
      · simp [matchDigits, hc, ih]
      · simp [matchDigits, hc]

theorem matchDigits_count (max : Nat) (cs : List Char) (h : (matchDigits max cs).2 = []) :
    (matchDigits max cs).1 = cs.length := by
  induction max generalizing cs with
  | zero =>
    cases cs with
    | nil => simp [matchDigits]
    | cons c cs => simp [matchDigits] at h
  | succ n ih =>
    cases cs with
    | nil => simp [matchDigits]
    | cons c cs =>
      by_cases hc : c.isDigit = true
      · simp only [matchDigits, hc, if_true] at h ⊢
        simp [ih cs h]
      · simp [matchDigits, hc] at h

theorem phoneRegexTest_iff (customerPhone : String) :
    phoneRegexTest customerPhone = true ↔ PhoneIsDigits8to15 customerPhone := by
  unfold phoneRegexTest PhoneIsDigits8to15
  simp only [Bool.and_eq_true, decide_eq_true_eq, List.isEmpty_iff, String.length]
  constructor
  · rintro ⟨h8, hnil⟩
    have hc := matchDigits_count 15 _ hnil
    have hr := (matchDigits_rest_nil 15 _).1 hnil
    exact ⟨by omega, hr.1, hr.2⟩
  · rintro ⟨h8, h15, hd⟩
    have hnil := (matchDigits_rest_nil 15 customerPhone.data).2 ⟨h15, hd⟩
    have hc := matchDigits_count 15 _ hnil
    exact ⟨by omega, hnil⟩

/-- C9. `processCheckout` ends with the validation error exactly when the customer phone is
not a string of 8 to 15 characters that are all decimal digits; in that case no request is
built or sent and the state (cart, stock overrides, stored entries) is unchanged; in the
other case the request is built. -/
theorem processCheckout_validation (sizeDeclared : Bool) (PRODUCTS : List Product)
    (st : AppState) (form : CheckoutForm) (orderId : String)
    (server : OrderPayload → ServerReply) :
    ((processCheckout sizeDeclared PRODUCTS st form orderId server).outcome
        = CheckoutOutcome.validationError ↔ ¬ PhoneIsDigits8to15 form.customerPhone) ∧
    (¬ PhoneIsDigits8to15 form.customerPhone →
      (processCheckout sizeDeclared PRODUCTS st form orderId server).request = none ∧
      (processCheckout sizeDeclared PRODUCTS st form orderId server).state = st) ∧
    (PhoneIsDigits8to15 form.customerPhone →
      (processCheckout sizeDeclared PRODUCTS st form orderId server).request
        = some (buildOrderPayload st form orderId)) := by
  by_cases h : phoneRegexTest form.customerPhone = true
  · have hv := (phoneRegexTest_iff _).1 h
    refine ⟨?_, fun hn => absurd hv hn,
      fun _ => processCheckout_request_of_valid _ _ _ _ _ _ h⟩
    simp only [hv, not_true, iff_false]
    unfold processCheckout
    simp only [h, Bool.not_true, Bool.false_eq_true, if_false]
    cases server (buildOrderPayload st form orderId) with
    | throws => simp
    | json success =>
      cases success with
      | false => simp
      | true =>
        simp only
        split <;> simp
  · have hv : ¬ PhoneIsDigits8to15 form.customerPhone := fun hv => h ((phoneRegexTest_iff _).2 hv)
    have hf : phoneRegexTest form.customerPhone = false := by simpa using h
    refine ⟨?_, fun _ => ?_, fun hn => absurd hn hv⟩
    · simp [hv, processCheckout, hf]
    · simp [processCheckout, hf]

/-- C9, instances: a 7-digit phone and a phone with a letter are refused without a request;
a 10-digit phone gets its request built. -/
theorem processCheckout_validation_witness :
    (processCheckout false [] (emptyCartState [])
        { customerName := "A", customerPhone := "1234567", customerAddress := "B", notes := "" }
        "PAWS-1" (fun _ => ServerReply.json true)).request = none ∧
      (processCheckout false [] (emptyCartState [])
        { customerName := "A", customerPhone := "08123x5678", customerAddress := "B",
          notes := "" }
        "PAWS-1" (fun _ => ServerReply.json true)).state = emptyCartState [] ∧
      (processCheckout false [] (emptyCartState [])
        { customerName := "A", customerPhone := "0812345678", customerAddress := "B",
          notes := "" }
        "PAWS-1" (fun _ => ServerReply.json true)).request
        = some (buildOrderPayload (emptyCartState [])
            { customerName := "A", customerPhone := "0812345678", customerAddress := "B",
              notes := "" } "PAWS-1") :=
  ⟨((processCheckout_validation false [] (emptyCartState [])
      { customerName := "A", customerPhone := "1234567", customerAddress := "B", notes := "" }
      "PAWS-1" (fun _ => ServerReply.json true)).2.1
      (fun h => absurd h.1 (by decide))).1,
   ((processCheckout_validation false [] (emptyCartState [])
      { customerName := "A", customerPhone := "08123x5678", customerAddress := "B",
        notes := "" }
      "PAWS-1" (fun _ => ServerReply.json true)).2.1
      (fun h => absurd (h.2.2 'x' (by decide)) (by decide))).2,
   (processCheckout_validation false [] (emptyCartState [])
      { customerName := "A", customerPhone := "0812345678", customerAddress := "B",
        notes := "" }
      "PAWS-1" (fun _ => ServerReply.json true)).2.2
      ⟨by decide, by decide, by decide⟩⟩

/-- C3. When the server answers with `success` false, or the network call or the parsing of
the response throws, `processCheckout` leaves the state as it was: cart, stock-override map
and every stored entry. The user is shown the server or the connection error (or the
validation error when the phone was refused before any call). -/
theorem processCheckout_failure_leaves_state (sizeDeclared : Bool) (PRODUCTS : List Product)
    (st : AppState) (form : CheckoutForm) (orderId : String)
    (server : OrderPayload → ServerReply)
    (h : server (buildOrderPayload st form orderId) = ServerReply.json false ∨
         server (buildOrderPayload st form orderId) = ServerReply.throws) :
    (processCheckout sizeDeclared PRODUCTS st form orderId server).state = st ∧
    (processCheckout sizeDeclared PRODUCTS st form orderId server).state.cart = st.cart ∧
    (processCheckout sizeDeclared PRODUCTS st form orderId server).state.STOCK_OVERRIDE
      = st.STOCK_OVERRIDE ∧
    (processCheckout sizeDeclared PRODUCTS st form orderId server).outcome
      ≠ CheckoutOutcome.orderCreated := by
  have key : (processCheckout sizeDeclared PRODUCTS st form orderId server).state = st ∧
      (processCheckout sizeDeclared PRODUCTS st form orderId server).outcome
        ≠ CheckoutOutcome.orderCreated := by
    unfold processCheckout
    split
    · simp
    · rcases h with h | h <;> simp [h]
  exact ⟨key.1, by rw [key.1], by rw [key.1], key.2⟩

/-- C3, instance: a cart of one line, server answering `success: false`. -/
theorem processCheckout_failure_leaves_state_witness :
    (processCheckout false [{ id := "p", name := "P", price := 10, sizes := [("M", 5)] }]
      { cart := [{ id := "p", size := "M", quantity := 1, price := 10, name := "P" }],
        STOCK_OVERRIDE := [("p_M", 4)],
        stored_cart := [{ id := "p", size := "M", quantity := 1, price := 10, name := "P" }],
        stored_stock_override := [("p_M", 4)],
        cart_subtotal := some 10, cart_shippingcost := some 0, cart_grandtotal := some 10 }
      { customerName := "A", customerPhone := "0812345678", customerAddress := "B",
        notes := "" }
      "PAWS-1" (fun _ => ServerReply.json false)).state
    = { cart := [{ id := "p", size := "M", quantity := 1, price := 10, name := "P" }],
        STOCK_OVERRIDE := [("p_M", 4)],
        stored_cart := [{ id := "p", size := "M", quantity := 1, price := 10, name := "P" }],
        stored_stock_override := [("p_M", 4)],
        cart_subtotal := some 10, cart_shippingcost := some 0, cart_grandtotal := some 10 } :=
  (processCheckout_failure_leaves_state false _ _ _ _ (fun _ => ServerReply.json false)
    (Or.inl rfl)).1

/-! ## Removing a line -/

theorem renderCart_cart (PRODUCTS : List Product) (cfg : Config) (st : AppState) :
    (renderCart PRODUCTS cfg st).cart = st.cart ∧
    (renderCart PRODUCTS cfg st).STOCK_OVERRIDE = st.STOCK_OVERRIDE := by
  unfold renderCart
  split <;> exact ⟨rfl, rfl⟩

theorem splice1_of_nonneg (cart : List CartItem) (i : Nat) :
    splice1 cart (JSInt.int i) = cart.eraseIdx i := by
  unfold splice1
  simp only
  have h0 : ¬ ((i : Int) < 0) := by omega
  simp only [h0, if_false]
  by_cases hi : i < cart.length
  · have h1 : min (i : Int) (cart.length : Int) = i := by omega
    have h2 : min (max (1 : Int) 0) ((cart.length : Int) - (i : Int)) = 1 := by omega
    rw [h1, h2]
    simp [List.eraseIdx_eq_take_drop_succ]
  · have h1 : min (i : Int) (cart.length : Int) = cart.length := by omega
    have h2 : min (max (1 : Int) 0) ((cart.length : Int) - (cart.length : Int)) = 0 := by omega
    rw [h1, h2]
    rw [List.eraseIdx_of_length_le (by omega)]
    simp

theorem splice1_NaN (cart : List CartItem) : splice1 cart JSInt.NaN = cart.eraseIdx 0 := by
  have h := splice1_of_nonneg cart 0
  simpa [splice1] using h

theorem splice1_of_neg (cart : List CartItem) (n : Int) (hn : n < 0) :
    splice1 cart (JSInt.int n) = cart.eraseIdx (max ((cart.length : Int) + n) 0).toNat := by
  have h := splice1_of_nonneg cart (max ((cart.length : Int) + n) 0).toNat
  rw [← h]
  unfold splice1
  simp only [hn, if_true]
  have hc : (((max ((cart.length : Int) + n) 0).toNat : Nat) : Int)
      = max ((cart.length : Int) + n) 0 := by
    rw [Int.toNat_of_nonneg (le_max_right _ _)]
  have h0 : ¬ ((((max ((cart.length : Int) + n) 0).toNat : Nat) : Int) < 0) := by omega
  simp only [h0, if_false]
  have h1 : min (((max ((cart.length : Int) + n) 0).toNat : Nat) : Int) (cart.length : Int)
      = max ((cart.length : Int) + n) 0 := by
    rw [hc]; omega
  rw [h1]

/-- C10 (as stated, refuted). With two lines in the cart, the index -1 removes the last line
and an index that is not a number removes the first line: the cart does not stay as it
was. -/
theorem splice_removes_on_negative_and_NaN :
    (attachCartEventListeners_onclick [] { FREE_SHIPPING_THRESHOLD := 200000, SHIPPING_FLAT := 15000 }
        { cart := [{ id := "p", size := "M", quantity := 1, price := 10, name := "P" },
                   { id := "q", size := "L", quantity := 2, price := 20, name := "Q" }],
          STOCK_OVERRIDE := [], stored_cart := [], stored_stock_override := [],
          cart_subtotal := none, cart_shippingcost := none, cart_grandtotal := none }
        (JSInt.int (-1))).1.cart
      = [{ id := "p", size := "M", quantity := 1, price := 10, name := "P" }] ∧
    (attachCartEventListeners_onclick [] { FREE_SHIPPING_THRESHOLD := 200000, SHIPPING_FLAT := 15000 }
        { cart := [{ id := "p", size := "M", quantity := 1, price := 10, name := "P" },
                   { id := "q", size := "L", quantity := 2, price := 20, name := "Q" }],
          STOCK_OVERRIDE := [], stored_cart := [], stored_stock_override := [],
          cart_subtotal := none, cart_shippingcost := none, cart_grandtotal := none }
        JSInt.NaN).1.cart
      = [{ id := "q", size := "L", quantity := 2, price := 20, name := "Q" }] := by
  decide

/-- C10 (amended). The remove handler does `cart.splice(index, 1)`: for an index with
0 ≤ index < cart length exactly the line at that position is removed and the order of the
others is kept; for an index ≥ length the cart is unchanged; a negative index counts back
from the last line, so index -k with 1 ≤ k ≤ length removes the line at position length - k,
and an index below -length removes the first line; an index that is not a number removes the first line;
in all cases the stock-override map is unchanged. -/
theorem removeByIndex_spec (PRODUCTS : List Product) (cfg : Config) (st : AppState) :
    (∀ i : Nat, i < st.cart.length →
      (attachCartEventListeners_onclick PRODUCTS cfg st (JSInt.int i)).1.cart
        = st.cart.eraseIdx i ∧
      (attachCartEventListeners_onclick PRODUCTS cfg st (JSInt.int i)).1.cart
        = st.cart.take i ++ st.cart.drop (i + 1)) ∧
    (∀ n : Int, (st.cart.length : Int) ≤ n →
      (attachCartEventListeners_onclick PRODUCTS cfg st (JSInt.int n)).1.cart = st.cart) ∧
    (∀ k : Nat, 1 ≤ k → k ≤ st.cart.length →
      (attachCartEventListeners_onclick PRODUCTS cfg st (JSInt.int (-(k : Int)))).1.cart
        = st.cart.eraseIdx (st.cart.length - k)) ∧
    (∀ n : Int, n < -(st.cart.length : Int) →
      (attachCartEventListeners_onclick PRODUCTS cfg st (JSInt.int n)).1.cart
        = st.cart.eraseIdx 0) ∧
    (attachCartEventListeners_onclick PRODUCTS cfg st JSInt.NaN).1.cart = st.cart.eraseIdx 0 ∧
    (∀ index : JSInt,
      (attachCartEventListeners_onclick PRODUCTS cfg st index).1.STOCK_OVERRIDE
        = st.STOCK_OVERRIDE) := by
  have hcart : ∀ index, (attachCartEventListeners_onclick PRODUCTS cfg st index).1.cart
      = splice1 st.cart index := by
    intro index
    simp [attachCartEventListeners_onclick, (renderCart_cart _ _ _).1]
  refine ⟨?_, ?_, ?_, ?_, ?_, ?_⟩
  · intro i _
    rw [hcart, splice1_of_nonneg]
    exact ⟨rfl, List.eraseIdx_eq_take_drop_succ _ _⟩
  · intro n hn
    have h0 : 0 ≤ n := by omega
    obtain ⟨m, rfl⟩ := Int.eq_ofNat_of_zero_le h0
    rw [hcart, splice1_of_nonneg]
    exact List.eraseIdx_of_length_le (by omega) 
  · intro k h1 hk
    rw [hcart, splice1_of_neg _ _ (by omega)]
    congr 1
    omega
  · intro n hn
    rw [hcart, splice1_of_neg _ _ (by omega)]
    congr 1
    omega
  · rw [hcart, splice1_NaN]
  · intro index
    simp [attachCartEventListeners_onclick, (renderCart_cart _ _ _).2]

/-- C10 (amended), instance: index 1 of a three-line cart removes the middle line. -/
theorem removeByIndex_spec_witness :
    (attachCartEventListeners_onclick [] { FREE_SHIPPING_THRESHOLD := 200000, SHIPPING_FLAT := 15000 }
        { cart := [{ id := "p", size := "M", quantity := 1, price := 10, name := "P" },
                   { id := "q", size := "L", quantity := 2, price := 20, name := "Q" },
                   { id := "r", size := "S", quantity := 3, price := 30, name := "R" }],
          STOCK_OVERRIDE := [], stored_cart := [], stored_stock_override := [],
          cart_subtotal := none, cart_shippingcost := none, cart_grandtotal := none }
        (JSInt.int (1 : Nat))).1.cart
      = List.eraseIdx [{ id := "p", size := "M", quantity := 1, price := 10, name := "P" },
                   { id := "q", size := "L", quantity := 2, price := 20, name := "Q" },
                   { id := "r", size := "S", quantity := 3, price := 30, name := "R" }] 1 :=
  ((removeByIndex_spec [] { FREE_SHIPPING_THRESHOLD := 200000, SHIPPING_FLAT := 15000 }
      { cart := [{ id := "p", size := "M", quantity := 1, price := 10, name := "P" },
                 { id := "q", size := "L", quantity := 2, price := 20, name := "Q" },
                 { id := "r", size := "S", quantity := 3, price := 30, name := "R" }],
        STOCK_OVERRIDE := [], stored_cart := [], stored_stock_override := [],
        cart_subtotal := none, cart_shippingcost := none, cart_grandtotal := none }).1 1
    (by decide)).1

/-! ## No over-selling -/

/-- C2 (code at the failing inputs). Checkout of the two-line cart of `collidingCart`, server
answering `success: true`. Both lines write the override key `a_b_c`, the second decrement
starting from the first: the stock of `("a_b", "c")` was 5, one unit was bought, and it ends
at 3, not at max(0, 5 - 1) = 4; this is so whether or not `renderProducts` throws. And with
the script as it is (no variable `size` for line 128), a checkout of one unit of a product
with 5 in stock, server answering `success: true`, writes the stock 4 and then ends in the
`catch` block: the cart still holds its line. -/
theorem processCheckout_success_divergence :
    (collidingCart.cart.map (fun item => (item.id, item.size, item.quantity))
        = [("a_b", "c", 1), ("a", "b_c", 1)]) ∧
    getProductStock collidingCatalog collidingCart.STOCK_OVERRIDE "a_b" "c" = 5 ∧
    getProductStock collidingCatalog
        (processCheckout true collidingCatalog collidingCart sampleForm "PAWS-1"
          (fun _ => ServerReply.json true)).state.STOCK_OVERRIDE "a_b" "c" = 3 ∧
    getProductStock collidingCatalog
        (processCheckout false collidingCatalog collidingCart sampleForm "PAWS-1"
          (fun _ => ServerReply.json true)).state.STOCK_OVERRIDE "a_b" "c" = 3 ∧
    (processCheckout false [{ id := "p", name := "P", price := 10, sizes := [("M", 5)] }]
        { cart := [{ id := "p", size := "M", quantity := 1, price := 10, name := "P" }],
          STOCK_OVERRIDE := [],
          stored_cart := [{ id := "p", size := "M", quantity := 1, price := 10, name := "P" }],
          stored_stock_override := [],
          cart_subtotal := some 10, cart_shippingcost := some 15000,
          cart_grandtotal := some 15010 }
        sampleForm "PAWS-1" (fun _ => ServerReply.json true)).state
      = { cart := [{ id := "p", size := "M", quantity := 1, price := 10, name := "P" }],
          STOCK_OVERRIDE := [("p_M", 4)],
          stored_cart := [{ id := "p", size := "M", quantity := 1, price := 10, name := "P" }],
          stored_stock_override := [("p_M", 4)],
          cart_subtotal := some 10, cart_shippingcost := some 15000,
          cart_grandtotal := some 15010 } ∧
    (processCheckout false [{ id := "p", name := "P", price := 10, sizes := [("M", 5)] }]
        { cart := [{ id := "p", size := "M", quantity := 1, price := 10, name := "P" }],
          STOCK_OVERRIDE := [],
          stored_cart := [{ id := "p", size := "M", quantity := 1, price := 10, name := "P" }],
          stored_stock_override := [],
          cart_subtotal := some 10, cart_shippingcost := some 15000,
          cart_grandtotal := some 15010 }
        sampleForm "PAWS-1" (fun _ => ServerReply.json true)).outcome
      = CheckoutOutcome.connectionError := by
  decide

theorem getProductStock_congr (PRODUCTS : List Product) {O O' : StockOverride}
    {productId size : String}
    (h : getProp O (stockKey productId size) = getProp O' (stockKey productId size)) :
    getProductStock PRODUCTS O productId size = getProductStock PRODUCTS O' productId size := by
  unfold getProductStock
  rw [h]

theorem updateStockAfterPurchase_forEach_other (PRODUCTS : List Product)
    (items : List CartItem) (key : String) :
    ∀ O : StockOverride, (∀ item ∈ items, stockKey item.id item.size ≠ key) →
      getProp (updateStockAfterPurchase_forEach PRODUCTS O items) key = getProp O key := by
  induction items with
  | nil => intro O _; rfl
  | cons x rest ih =>
    intro O h
    simp only [updateStockAfterPurchase_forEach]
    rw [ih _ (fun item hitem => h item (List.mem_cons_of_mem _ hitem))]
    exact getProp_setProp_of_ne _ _ (h x (List.mem_cons_self _ _))

theorem updateStockAfterPurchase_forEach_item (PRODUCTS : List Product)
    (items : List CartItem) :
    ∀ O : StockOverride, (items.map (fun item => stockKey item.id item.size)).Nodup →
      ∀ item ∈ items,
        getProp (updateStockAfterPurchase_forEach PRODUCTS O items)
            (stockKey item.id item.size)
          = some (max 0 (getProductStock PRODUCTS O item.id item.size - item.quantity)) := by
  induction items with
  | nil => intro O _ item hitem; simp at hitem
  | cons x rest ih =>
    intro O hnodup item hitem
    simp only [List.map_cons, List.nodup_cons] at hnodup
    simp only [updateStockAfterPurchase_forEach]
    rcases List.mem_cons.1 hitem with heq | hrest
    · subst heq
      rw [updateStockAfterPurchase_forEach_other]
      · exact getProp_setProp_self _ _ _
      · intro l hl hkey
        exact hnodup.1 (List.mem_map.2 ⟨l, hl, hkey⟩)
    · have hne : stockKey x.id x.size ≠ stockKey item.id item.size := by
        intro hkey
        exact hnodup.1 (List.mem_map.2 ⟨item, hrest, hkey.symm⟩)
      rw [ih _ hnodup.2 item hrest]
      rw [getProductStock_congr PRODUCTS (getProp_setProp_of_ne O _ hne)]

/-- Where the property of a successful checkout does hold: when `renderProducts` does not
throw, no two lines of the cart share an override key, and the line is of a known product or
of a non-negative quantity, the stock of the line's pair after the checkout is
max(0, stock before - quantity), and the cart is empty. -/
theorem processCheckout_success_of_distinct_keys (sizeDeclared : Bool)
    (PRODUCTS : List Product) (st : AppState) (form : CheckoutForm) (orderId : String)
    (server : OrderPayload → ServerReply)
    (hphone : phoneRegexTest form.customerPhone = true)
    (hserver : server (buildOrderPayload st form orderId) = ServerReply.json true)
    (hrender : renderProductsThrows sizeDeclared PRODUCTS = false)
    (hkeys : (st.cart.map (fun item => stockKey item.id item.size)).Nodup)
    (item : CartItem) (hitem : item ∈ st.cart)
    (hknown : findProduct PRODUCTS item.id ≠ none ∨ 0 ≤ item.quantity) :
    (processCheckout sizeDeclared PRODUCTS st form orderId server).state.cart = [] ∧
    getProductStock PRODUCTS
        (processCheckout sizeDeclared PRODUCTS st form orderId server).state.STOCK_OVERRIDE
        item.id item.size
      = max 0 (getProductStock PRODUCTS st.STOCK_OVERRIDE item.id item.size - item.quantity) := by
  have hst : (processCheckout sizeDeclared PRODUCTS st form orderId server).state
      = { (updateStockAfterPurchase sizeDeclared PRODUCTS st st.cart).1 with
          cart := [], stored_cart := [] } := by
    unfold processCheckout
    simp [hphone, hserver, updateStockAfterPurchase, hrender]
  rw [hst]
  refine ⟨rfl, ?_⟩
  simp only [updateStockAfterPurchase]
  have hget := updateStockAfterPurchase_forEach_item PRODUCTS st.cart st.STOCK_OVERRIDE
    hkeys item hitem
  cases hp : findProduct PRODUCTS item.id with
  | none =>
    have hq : 0 ≤ item.quantity := by
      rcases hknown with h | h
      · exact absurd hp h
      · exact h
    simp only [getProductStock, hp]
    omega
  | some product =>
    conv_lhs => unfold getProductStock
    simp only [hp, hget]

/-- Instance of `processCheckout_success_of_distinct_keys`: one line, stock 5, quantity 2,
with a variable `size` declared outside the script. -/
theorem processCheckout_success_of_distinct_keys_witness :
    getProductStock [{ id := "p", name := "P", price := 10, sizes := [("M", 5)] }]
        (processCheckout true [{ id := "p", name := "P", price := 10, sizes := [("M", 5)] }]
          { cart := [{ id := "p", size := "M", quantity := 2, price := 10, name := "P" }],
            STOCK_OVERRIDE := [], stored_cart := [], stored_stock_override := [],
            cart_subtotal := none, cart_shippingcost := none, cart_grandtotal := none }
          sampleForm "PAWS-1" (fun _ => ServerReply.json true)).state.STOCK_OVERRIDE "p" "M"
      = max 0 (getProductStock [{ id := "p", name := "P", price := 10, sizes := [("M", 5)] }]
          [] "p" "M" - 2) :=
  (processCheckout_success_of_distinct_keys true
    [{ id := "p", name := "P", price := 10, sizes := [("M", 5)] }]
    { cart := [{ id := "p", size := "M", quantity := 2, price := 10, name := "P" }],
      STOCK_OVERRIDE := [], stored_cart := [], stored_stock_override := [],
      cart_subtotal := none, cart_shippingcost := none, cart_grandtotal := none }
    sampleForm "PAWS-1" (fun _ => ServerReply.json true)
    (by decide) rfl (by decide) (by decide)
    { id := "p", size := "M", quantity := 2, price := 10, name := "P" }
    (by decide) (Or.inr (by decide))).2

/-! ## The amount shown on a refused merge -/

/-- C11 (as stated, refuted). Stock 5, the cart already holds 3 of the pair, and 3 more are
asked for: the merge is refused and the message shows 5, the whole stock, while the most
that could still be added is 5 - 3 = 2. -/
theorem addToCart_reports_stock_not_addable :
    getProductStock oneProductCatalog cartWithThree.STOCK_OVERRIDE "p" "M" = 5 ∧
    cartQuantity cartWithThree.cart "p" "M" = 3 ∧
    (addToCart oneProductCatalog cartWithThree "p" "M" 3).2 = Toast.hanyaTersedia 5 ∧
    (addToCart oneProductCatalog cartWithThree "p" "M" 3).2
      ≠ Toast.hanyaTersedia
          (getProductStock oneProductCatalog cartWithThree.STOCK_OVERRIDE "p" "M"
            - cartQuantity cartWithThree.cart "p" "M") := by
  decide

/-- C11 (amended). When `addToCart` is called for a pair that already has a cart line, with
a quantity of at most the stock, and the merged quantity would exceed
`getProductStock(productId, size)`, the call changes nothing and the amount shown to the user
is `getProductStock(productId, size)` itself, the whole stock; it is the amount that could
still be added only when the line holds a quantity of 0. -/
theorem addToCart_reports_stock (PRODUCTS : List Product) (st : AppState)
    (productId size : String) (quantity : Int) (existingItemIndex : Nat)
    (existing : CartItem)
    (hfirst : quantity ≤ getProductStock PRODUCTS st.STOCK_OVERRIDE productId size)
    (hindex : findIndex (fun item => item.id = productId && item.size = size) st.cart
      = some existingItemIndex)
    (hline : st.cart[existingItemIndex]? = some existing)
    (hmerged : existing.quantity + quantity
      > getProductStock PRODUCTS st.STOCK_OVERRIDE productId size) :
    addToCart PRODUCTS st productId size quantity
      = (st, Toast.hanyaTersedia
          (getProductStock PRODUCTS st.STOCK_OVERRIDE productId size)) ∧
    ((addToCart PRODUCTS st productId size quantity).2
      = Toast.hanyaTersedia
          (getProductStock PRODUCTS st.STOCK_OVERRIDE productId size - existing.quantity)
      ↔ existing.quantity = 0) := by
  have hnot : ¬ getProductStock PRODUCTS st.STOCK_OVERRIDE productId size < quantity := by
    omega
  have hres : addToCart PRODUCTS st productId size quantity
      = (st, Toast.hanyaTersedia
          (getProductStock PRODUCTS st.STOCK_OVERRIDE productId size)) := by
    unfold addToCart
    simp only [hnot, if_false, hindex, hline, hmerged, if_true]
  refine ⟨hres, ?_⟩
  rw [hres]
  simp only [Toast.hanyaTersedia.injEq]
  constructor
  · intro h; omega
  · intro h; omega

/-- C11 (amended), instance: stock 5, 3 in the cart, 3 more asked for: 5 is shown. -/
theorem addToCart_reports_stock_witness :
    addToCart oneProductCatalog cartWithThree "p" "M" 3
      = (cartWithThree, Toast.hanyaTersedia
          (getProductStock oneProductCatalog cartWithThree.STOCK_OVERRIDE "p" "M")) :=
  (addToCart_reports_stock oneProductCatalog cartWithThree "p" "M" 3 0
    { id := "p", size := "M", quantity := 3, price := 10, name := "P" }
    (by decide) (by decide) (by decide) (by decide)).1

/-! ## Which stocks a purchase touches -/

/-- C12 (code at the failing input). Catalog `collidingCatalog`, no overrides, one unit of
`("a", "b_c")` bought. The pair `("a_b", "c")` is not the pair of the purchased item, yet its
stock goes from 5 to 4, because both pairs build the override key `a_b_c`; the pair
`("a", "b_c")` itself goes from 5 to 4 as it should. -/
theorem updateStockAfterPurchase_touches_colliding_pair :
    (("a_b", "c") : String × String) ≠ ("a", "b_c") ∧
    stockKey "a_b" "c" = stockKey "a" "b_c" ∧
    getProductStock collidingCatalog (emptyCartState []).STOCK_OVERRIDE "a_b" "c" = 5 ∧
    getProductStock collidingCatalog
        (updateStockAfterPurchase true collidingCatalog (emptyCartState [])
          [{ id := "a", size := "b_c", quantity := 1, price := 20, name := "A" }]).1.STOCK_OVERRIDE
        "a_b" "c" = 4 ∧
    getProductStock collidingCatalog
        (updateStockAfterPurchase false collidingCatalog (emptyCartState [])
          [{ id := "a", size := "b_c", quantity := 1, price := 20, name := "A" }]).1.STOCK_OVERRIDE
        "a_b" "c" = 4 ∧
    getProductStock collidingCatalog
        (updateStockAfterPurchase true collidingCatalog (emptyCartState [])
          [{ id := "a", size := "b_c", quantity := 1, price := 20, name := "A" }]).1.STOCK_OVERRIDE
        "a" "b_c" = 4 := by
  decide

/-- Where the frame property does hold: `updateStockAfterPurchase` leaves
`getProductStock(p, s)` unchanged for every pair whose override key is not the override key
of any purchased item. -/
theorem updateStockAfterPurchase_frame_of_distinct_key (sizeDeclared : Bool)
    (PRODUCTS : List Product) (st : AppState) (items : List CartItem)
    (productId size : String)
    (hkey : ∀ item ∈ items, stockKey item.id item.size ≠ stockKey productId size) :
    getProductStock PRODUCTS
        (updateStockAfterPurchase sizeDeclared PRODUCTS st items).1.STOCK_OVERRIDE
        productId size
      = getProductStock PRODUCTS st.STOCK_OVERRIDE productId size := by
  simp only [updateStockAfterPurchase]
  exact getProductStock_congr PRODUCTS
    (updateStockAfterPurchase_forEach_other PRODUCTS items _ _ hkey)

/-- Instance of `updateStockAfterPurchase_frame_of_distinct_key`: buying `("a", "b_c")` leaves
the stock of `("a", "x")` alone. -/
theorem updateStockAfterPurchase_frame_of_distinct_key_witness :
    getProductStock collidingCatalog
        (updateStockAfterPurchase true collidingCatalog (emptyCartState [])
          [{ id := "a", size := "b_c", quantity := 1, price := 20, name := "A" }]).1.STOCK_OVERRIDE
        "a" "x"
      = getProductStock collidingCatalog (emptyCartState []).STOCK_OVERRIDE "a" "x" :=
  updateStockAfterPurchase_frame_of_distinct_key true collidingCatalog (emptyCartState [])
    [{ id := "a", size := "b_c", quantity := 1, price := 20, name := "A" }] "a" "x"
    (by
      intro item hitem
      simp only [List.mem_singleton] at hitem
      subst hitem
      decide)

end Paws
